import Mathlib

set_option maxRecDepth 100000
set_option maxHeartbeats 1000000

/-!
Verification of the data preprocessing and windowing pipeline of the
bike-demand forecasting repository (`src/data-loader.js`, two `DataLoader`
variants in that file, plus the third variant in `src/unnamed/part_000`).

Modelling conventions (shallow embedding):
  - JS numbers that are always finite in the modelled runs are embedded as `ℚ`
    (the claims under study are stated in exact real arithmetic).
  - A JS number that may be `NaN` (the result of `parseInt`/`parseFloat` on a
    non-numeric string) is embedded as `Option ℚ`, with `none` playing the
    role of `NaN`; `isNaN v` is `v.isNone`, and arithmetic on `NaN` propagates
    `none`.
  - `Math.sin`/`Math.cos` applied to the hour are kept abstract: the pipeline
    functions take `hsin hcos : ℤ → ℚ` as parameters, so every theorem holds
    for an arbitrary interpretation of the two trigonometric columns.  The
    exact-real cyclical encoding itself is modelled separately over `ℝ`.
  - `Array.prototype.sort` with the date/hour comparator is modelled by a
    stable insertion sort keyed by `(dateTime, hour)`.
  - `Math.floor(n * (1 - 0.2))` over binary64 equals `⌊4n/5⌋` for every list
    length `n` arising here (the relative error of the double product is below
    half an ulp, and for `5 ∤ n` the exact value is at distance `≥ 1/5` from
    the nearest integer), so the split index is embedded as `4 * n / 5`.
-/

/-- Fold-based minimum of a list, mirroring `Math.min(...values)`
(`none` models the `Infinity` returned on an empty argument list). -/
def listMin : List ℚ → Option ℚ
  | [] => none
  | x :: xs => some (xs.foldl min x)

/-- Fold-based maximum of a list, mirroring `Math.max(...values)`. -/
def listMax : List ℚ → Option ℚ
  | [] => none
  | x :: xs => some (xs.foldl max x)

/-- One row of `preprocessData`/`map` output in `src/data-loader.js`
(first `DataLoader` variant): typed fields produced from a raw CSV record.
The eight numeric measurement fields and the demand label are `Option ℚ`
because `parseFloat`/`parseInt` may yield `NaN` (`none`).  `dateTime` stands
for `date.getTime()`. -/
structure PRow where
  dateTime : ℤ
  hour : ℤ
  rented_bike_count : Option ℚ
  temperature : Option ℚ
  humidity : Option ℚ
  wind_speed : Option ℚ
  visibility : Option ℚ
  dew_point_temperature : Option ℚ
  solar_radiation : Option ℚ
  rainfall : Option ℚ
  snowfall : Option ℚ
  seasons : String
  holiday : ℚ
  functioning_day : ℚ
deriving DecidableEq, Repr

/-- The row-level validity filter of `preprocessData` (`src/data-loader.js`
lines 90-101 and 465-491): keep a row iff none of the nine checked numeric
fields is `NaN`. -/
def rowValid (r : PRow) : Bool :=
  r.rented_bike_count.isSome && r.temperature.isSome && r.humidity.isSome &&
  r.wind_speed.isSome && r.visibility.isSome && r.dew_point_temperature.isSome &&
  r.solar_radiation.isSome && r.rainfall.isSome && r.snowfall.isSome

/-- The eight numeric measurement fields are finite (no label requirement);
used to phrase hypotheses about datasets whose numeric fields parse. -/
def numericFinite (r : PRow) : Bool :=
  r.temperature.isSome && r.humidity.isSome && r.wind_speed.isSome &&
  r.visibility.isSome && r.dew_point_temperature.isSome &&
  r.solar_radiation.isSome && r.rainfall.isSome && r.snowfall.isSome

/-- The sort comparator of `preprocessData`: ascending `date.getTime()`,
ties broken by ascending `hour`. -/
def rowLe (a b : PRow) : Bool :=
  if a.dateTime = b.dateTime then a.hour ≤ b.hour else a.dateTime < b.dateTime

/-- Insert a row into an already ordered list, before the first element it
compares `≤` to (stable position for the element being inserted). -/
def insertRow (x : PRow) : List PRow → List PRow
  | [] => [x]
  | y :: ys => if rowLe x y then x :: y :: ys else y :: insertRow x ys

/-- Stable sort by `(dateTime, hour)`, modelling `processed.sort(comparator)`. -/
def sortRows : List PRow → List PRow
  | [] => []
  | x :: xs => insertRow x (sortRows xs)

/-- The `preprocessData` method of the first `DataLoader` variant
(`src/data-loader.js` lines 62-119): filter out rows with `NaN` numeric
fields, sort chronologically, and throw when nothing survives. -/
def preprocessData (data : List PRow) : Except String (List PRow) :=
  let processed := sortRows (data.filter rowValid)
  if processed.length = 0 then
    Except.error "EmptyDatasetError"
  else
    Except.ok processed

/-- The `preprocessData` method of the second `DataLoader` variant
(`src/data-loader.js` lines 433-505): same filter and sort, but no emptiness
check and no throw. -/
def preprocessData2 (data : List PRow) : List PRow :=
  sortRows (data.filter rowValid)

/-- Fitted per-column statistics (`this.normalizationParams[feature]`). -/
structure ScaleParams where
  min : ℚ
  max : ℚ
deriving DecidableEq, Repr

/-- The non-`NaN` values of one column:
`data.map(row => row[feature]).filter(v => !isNaN(v))`. -/
def featValues (get : PRow → Option ℚ) (data : List PRow) : List ℚ :=
  (data.map get).filterMap id

/-- Fit `{min, max}` for one column (`normalizeFeatures`, lines 163-169).
`none` models the degenerate `{min: Infinity, max: -Infinity}` fitted from a
column with no finite values. -/
def colParams (get : PRow → Option ℚ) (data : List PRow) : Option ScaleParams :=
  match listMin (featValues get data), listMax (featValues get data) with
  | some mn, some mx => some ⟨mn, mx⟩
  | _, _ => none

/-- Apply min-max scaling to one value (`normalizeFeatures`, lines 176-184):
`range === 0` yields `0` without reading the value; otherwise
`(v - min) / range`, with `NaN` (`none`) propagating.  A `none` parameter
(empty column) corresponds to an infinite `range`, for which every division
in the source produces `NaN`. -/
def normVal (p : Option ScaleParams) (v : Option ℚ) : Option ℚ :=
  match p with
  | none => none
  | some q =>
      if q.max - q.min = 0 then some 0
      else v.map (fun x => (x - q.min) / (q.max - q.min))

/-- The fitted `this.normalizationParams` object: one `{min, max}` per
numeric feature, in the order of the `numericFeatures` array. -/
structure NormParams where
  temperature : Option ScaleParams
  humidity : Option ScaleParams
  wind_speed : Option ScaleParams
  visibility : Option ScaleParams
  dew_point_temperature : Option ScaleParams
  solar_radiation : Option ScaleParams
  rainfall : Option ScaleParams
  snowfall : Option ScaleParams
deriving DecidableEq, Repr

/-- Fit all eight feature columns from `data` (`normalizeFeatures`,
lines 162-169). -/
def fitNormParams (data : List PRow) : NormParams where
  temperature := colParams (fun r => r.temperature) data
  humidity := colParams (fun r => r.humidity) data
  wind_speed := colParams (fun r => r.wind_speed) data
  visibility := colParams (fun r => r.visibility) data
  dew_point_temperature := colParams (fun r => r.dew_point_temperature) data
  solar_radiation := colParams (fun r => r.solar_radiation) data
  rainfall := colParams (fun r => r.rainfall) data
  snowfall := colParams (fun r => r.snowfall) data

/-- A normalized record (`normalizeFeatures` map output, lines 172-196):
the eight measurements are scaled, the label is kept verbatim, and the
cyclical and one-hot columns are appended. -/
structure NRow where
  dateTime : ℤ
  hour : ℤ
  rented_bike_count : Option ℚ
  temperature : Option ℚ
  humidity : Option ℚ
  wind_speed : Option ℚ
  visibility : Option ℚ
  dew_point_temperature : Option ℚ
  solar_radiation : Option ℚ
  rainfall : Option ℚ
  snowfall : Option ℚ
  seasons : String
  holiday : ℚ
  functioning_day : ℚ
  hour_sin : ℚ
  hour_cos : ℚ
  season_spring : ℚ
  season_summer : ℚ
  season_autumn : ℚ
  season_winter : ℚ
deriving DecidableEq, Repr

/-- The `oneHotEncodeSeason` method (lines 139-146): hardcoded vocabulary in the fixed
order Spring, Summer, Autumn, Winter. -/
def oneHotEncodeSeason (season : String) : ℚ × ℚ × ℚ × ℚ :=
  ((if season = "Spring" then 1 else 0),
   (if season = "Summer" then 1 else 0),
   (if season = "Autumn" then 1 else 0),
   (if season = "Winter" then 1 else 0))

/-- One iteration of the `normalizeFeatures` map (lines 172-196), with the
already fitted parameters `p` and the abstract trigonometric columns. -/
def normRow (p : NormParams) (hsin hcos : ℤ → ℚ) (row : PRow) : NRow where
  dateTime := row.dateTime
  hour := row.hour
  rented_bike_count := row.rented_bike_count
  temperature := normVal p.temperature row.temperature
  humidity := normVal p.humidity row.humidity
  wind_speed := normVal p.wind_speed row.wind_speed
  visibility := normVal p.visibility row.visibility
  dew_point_temperature := normVal p.dew_point_temperature row.dew_point_temperature
  solar_radiation := normVal p.solar_radiation row.solar_radiation
  rainfall := normVal p.rainfall row.rainfall
  snowfall := normVal p.snowfall row.snowfall
  seasons := row.seasons
  holiday := row.holiday
  functioning_day := row.functioning_day
  hour_sin := hsin row.hour
  hour_cos := hcos row.hour
  season_spring := (oneHotEncodeSeason row.seasons).1
  season_summer := (oneHotEncodeSeason row.seasons).2.1
  season_autumn := (oneHotEncodeSeason row.seasons).2.2.1
  season_winter := (oneHotEncodeSeason row.seasons).2.2.2

/-- The `normalizeFeatures` method (first variant, lines 153-208): fit the per-feature
`{min, max}` from the very data being normalized, then scale every row. -/
def normalizeFeatures (hsin hcos : ℤ → ℚ) (data : List PRow) : List NRow :=
  data.map (normRow (fitNormParams data) hsin hcos)

/-- The `this.featureNames` array (lines 199-204), verbatim order. -/
def featureNames : List String :=
  ["temperature", "humidity", "wind_speed", "visibility",
   "dew_point_temperature", "solar_radiation", "rainfall", "snowfall",
   "hour_sin", "hour_cos", "holiday", "functioning_day",
   "season_spring", "season_summer", "season_autumn", "season_winter"]

/-- Property lookup `data[j][name]` for the names used by `createSequences`
(an unknown name reads `undefined`, which becomes `NaN` in the tensor:
modelled `none`). -/
def getFeature (r : NRow) : String → Option ℚ
  | "temperature" => r.temperature
  | "humidity" => r.humidity
  | "wind_speed" => r.wind_speed
  | "visibility" => r.visibility
  | "dew_point_temperature" => r.dew_point_temperature
  | "solar_radiation" => r.solar_radiation
  | "rainfall" => r.rainfall
  | "snowfall" => r.snowfall
  | "hour_sin" => some r.hour_sin
  | "hour_cos" => some r.hour_cos
  | "holiday" => some r.holiday
  | "functioning_day" => some r.functioning_day
  | "season_spring" => some r.season_spring
  | "season_summer" => some r.season_summer
  | "season_autumn" => some r.season_autumn
  | "season_winter" => some r.season_winter
  | _ => none

/-- The per-time-step feature vector materialized by `createSequences`:
`this.featureNames.map(name => data[j][name])`. -/
def featuresOf (r : NRow) : List (Option ℚ) :=
  featureNames.map (getFeature r)

/-- The `{sequences, labels}` pair returned by `createSequences`. -/
structure SeqLab where
  sequences : List (List (List (Option ℚ)))
  labels : List (List (Option ℚ))
deriving DecidableEq, Repr

/-- The `createSequences` method (first variant, lines 215-246).  The JS loop runs
`for (let i = sequenceLength; i < data.length - predictionLength; i++)` with
both constants 24, so the start indices are `24, 25, ...` and there are
`(data.length - 24) - 24` of them; the inner loops read the contiguous
slices `data[i-24..i)` (features) and `data[i..i+24)` (labels), which are the
`drop/take` slices below (all indices are in bounds for these `i`). -/
def createSequences (data : List NRow) : SeqLab where
  sequences :=
    (List.range' 24 (data.length - 24 - 24)).map
      (fun i => ((data.drop (i - 24)).take 24).map featuresOf)
  labels :=
    (List.range' 24 (data.length - 24 - 24)).map
      (fun i => ((data.drop i).take 24).map (fun r => r.rented_bike_count))

/-- The `{trainData, testData}` bundle returned by `splitData`. -/
structure SplitData where
  trainSequences : List (List (List (Option ℚ)))
  trainLabels : List (List (Option ℚ))
  testSequences : List (List (List (Option ℚ)))
  testLabels : List (List (Option ℚ))
deriving DecidableEq, Repr

/-- The `splitData` method (lines 255-274) with its default test fraction 0.2:
`splitIndex = Math.floor(sequences.length * (1 - 0.2))`, embedded as
`⌊4n/5⌋` (exact for binary64 at all relevant lengths, see the header note),
then plain prefix/suffix slicing of the stride-1 window list. -/
def splitData (sequences : List (List (List (Option ℚ))))
    (labels : List (List (Option ℚ))) : SplitData :=
  let splitIndex := 4 * sequences.length / 5
  { trainSequences := sequences.take splitIndex
    trainLabels := labels.take splitIndex
    testSequences := sequences.drop splitIndex
    testLabels := labels.drop splitIndex }

/-- The bundle returned by `loadAndPreprocess` (lines 321-327); the raw rows
and tensors are omitted, the fitted scaler parameters are kept. -/
structure Dataset where
  split : SplitData
  featureNamesOut : List String
  normalizationParams : NormParams
deriving DecidableEq, Repr

/-- The `loadAndPreprocess` method (first variant, lines 299-333) from the point where
the CSV rows have been parsed into typed rows: preprocess, normalize the
WHOLE dataset (fitting the scaler on it), window, then split. -/
def loadAndPreprocess (hsin hcos : ℤ → ℚ) (data : List PRow) :
    Except String Dataset :=
  (preprocessData data).map (fun processed =>
    let normalized := normalizeFeatures hsin hcos processed
    let sl := createSequences normalized
    { split := splitData sl.sequences sl.labels
      featureNamesOut := featureNames
      normalizationParams := fitNormParams processed })

/-- One processed record of the third `DataLoader` variant
(`src/unnamed/part_000`, `preprocessData` lines 83-137).  That variant has no
validity filter, so the claims about it quantify over datasets whose numeric
fields parsed (plain `ℚ`).  The trigonometric and one-hot columns are already
materialized by its `preprocessData`. -/
structure P0Row where
  dateTime : ℤ
  rentedBikeCount : ℚ
  hourSin : ℚ
  hourCos : ℚ
  temperature : ℚ
  humidity : ℚ
  windSpeed : ℚ
  visibility : ℚ
  dewPoint : ℚ
  solarRadiation : ℚ
  rainfall : ℚ
  snowfall : ℚ
  seasonSpring : ℚ
  seasonSummer : ℚ
  seasonAutumn : ℚ
  seasonWinter : ℚ
  holiday : ℚ
  functioningDay : ℚ
deriving DecidableEq, Repr

/-- The stored range `const range = max - min || 1` (`part_000` line 162):
`1` whenever `max - min` is `0`, else `max - min`. -/
def p0Range (mn mx : ℚ) : ℚ :=
  if mx - mn = 0 then 1 else mx - mn

/-- Scaling of one value by fitted `{min, max}` in `part_000`
(`normalizeFeatures` line 167): `(v - min) / range`. -/
def p0NormalizeVal (mn mx v : ℚ) : ℚ :=
  (v - mn) / p0Range mn mx

/-- The `denormalize` method (`part_000` lines 236-239): `normalizedValue * range + min`
with the stored `range`. -/
def p0DenormalizeVal (mn mx nv : ℚ) : ℚ :=
  nv * p0Range mn mx + mn

/-- Column minimum for a nonempty dataset `x :: xs`
(`Math.min(...values)` over `values = data.map(row => row[feature])`). -/
def p0ColMin (get : P0Row → ℚ) (x : P0Row) (xs : List P0Row) : ℚ :=
  (xs.map get).foldl min (get x)

/-- Column maximum for a nonempty dataset `x :: xs`. -/
def p0ColMax (get : P0Row → ℚ) (x : P0Row) (xs : List P0Row) : ℚ :=
  (xs.map get).foldl max (get x)

/-- Normalize one field of row `r` against the statistics of the dataset
`x :: xs` it belongs to (`part_000` `normalizeFeatures` lines 158-169). -/
def p0NormField (get : P0Row → ℚ) (x : P0Row) (xs : List P0Row) (r : P0Row) : ℚ :=
  p0NormalizeVal (p0ColMin get x xs) (p0ColMax get x xs) (get r)

/-- The `normalizeFeatures` method of `part_000` (lines 152-170): min-max scale the
eight measurements AND the demand label in place.  The per-feature passes
are independent (each reads and writes only its own field), so they are
modelled as one map. -/
def normalizeFeatures0 : List P0Row → List P0Row
  | [] => []
  | x :: xs =>
      (x :: xs).map (fun r =>
        { r with
          temperature := p0NormField (fun s => s.temperature) x xs r
          humidity := p0NormField (fun s => s.humidity) x xs r
          windSpeed := p0NormField (fun s => s.windSpeed) x xs r
          visibility := p0NormField (fun s => s.visibility) x xs r
          dewPoint := p0NormField (fun s => s.dewPoint) x xs r
          solarRadiation := p0NormField (fun s => s.solarRadiation) x xs r
          rainfall := p0NormField (fun s => s.rainfall) x xs r
          snowfall := p0NormField (fun s => s.snowfall) x xs r
          rentedBikeCount := p0NormField (fun s => s.rentedBikeCount) x xs r })

/-- The `featureKeys` array of `part_000` `createSequences` (lines 180-185),
read off one row, in its verbatim order (the label is also a feature there). -/
def p0FeaturesOf (r : P0Row) : List ℚ :=
  [r.hourSin, r.hourCos, r.temperature, r.humidity, r.windSpeed,
   r.visibility, r.dewPoint, r.solarRadiation, r.rainfall, r.snowfall,
   r.seasonSpring, r.seasonSummer, r.seasonAutumn, r.seasonWinter,
   r.holiday, r.functioningDay, r.rentedBikeCount]

/-- The `{sequences, labels}` built by `part_000` `createSequences`. -/
structure P0SeqLab where
  sequences : List (List (List ℚ))
  labels : List (List ℚ)
deriving DecidableEq, Repr

/-- The `createSequences(sequenceLength)` method of `part_000` (lines 175-208): the loop
`for (let i = sequenceLength; i < data.length - sequenceLength; i++)` uses the
same constant for lookback and horizon, so the start indices are
`L, L+1, ...`, `(data.length - L) - L` of them. -/
def createSequences0 (L : ℕ) (data : List P0Row) : P0SeqLab where
  sequences :=
    (List.range' L (data.length - L - L)).map
      (fun i => ((data.drop (i - L)).take L).map p0FeaturesOf)
  labels :=
    (List.range' L (data.length - L - L)).map
      (fun i => ((data.drop i).take L).map (fun r => r.rentedBikeCount))

/-- The train/test bundle of `part_000` `splitData` (lines 213-231), before
tensor conversion (`testActuals` is reporting-only and omitted here). -/
structure P0Split where
  trainSequences : List (List (List ℚ))
  trainLabels : List (List ℚ)
  testSequences : List (List (List ℚ))
  testLabels : List (List ℚ)
deriving DecidableEq, Repr

/-- The `splitData(trainSplit)` method of `part_000` with its default 0.8 split:
`splitIndex = Math.floor(sequences.length * 0.8)`, embedded as `⌊4n/5⌋`
(exact for binary64, see the header note). -/
def splitData0 (sl : P0SeqLab) : P0Split :=
  let splitIndex := 4 * sl.sequences.length / 5
  { trainSequences := sl.sequences.take splitIndex
    trainLabels := sl.labels.take splitIndex
    testSequences := sl.sequences.drop splitIndex
    testLabels := sl.labels.drop splitIndex }

/-- The `part_000` pipeline from processed records onward
(`preprocessData` lines 139-147: normalize, window with the default
`sequenceLength = 24`, split with the default `trainSplit = 0.8`). -/
def p0Pipeline (data : List P0Row) : P0Split :=
  splitData0 (createSequences0 24 (normalizeFeatures0 data))

/-- The `createCyclicalFeatures` hour angle (`src/data-loader.js` line 127,
`part_000` lines 101-102), in exact real arithmetic:
`hourRad = hour * 2 * PI / 24`. -/
noncomputable def hourRad (hour : ℕ) : ℝ :=
  ((hour : ℝ) * 2 * Real.pi) / 24

/-- The `hour_sin` column value in exact real arithmetic. -/
noncomputable def hourSinR (h : ℕ) : ℝ :=
  Real.sin (hourRad h)

/-- The `hour_cos` column value in exact real arithmetic. -/
noncomputable def hourCosR (h : ℕ) : ℝ :=
  Real.cos (hourRad h)

/-- The successor hour on the 24-hour clock (hour 23 wraps to hour 0). -/
def nextHour (h : ℕ) : ℕ :=
  (h + 1) % 24

/-- Euclidean distance between the cyclical encodings of an hour and of the
following hour. -/
noncomputable def consecHourDist (h : ℕ) : ℝ :=
  Real.sqrt ((hourSinR (nextHour h) - hourSinR h) ^ 2 +
    (hourCosR (nextHour h) - hourCosR h) ^ 2)

/-- Modelled from the spec (for the refutation of the column-order claim):
the FeatureVector order the specification asserts, namely the eight numeric
measurement columns, `hour_sin`, `hour_cos`, then the one-hot season columns
in lexicographically sorted vocabulary order (Autumn < Spring < Summer <
Winter), then the holiday column, then the functioning-day column. -/
def specFeatureNames : List String :=
  ["temperature", "humidity", "wind_speed", "visibility",
   "dew_point_temperature", "solar_radiation", "rainfall", "snowfall",
   "hour_sin", "hour_cos",
   "season_autumn", "season_spring", "season_summer", "season_winter",
   "holiday", "functioning_day"]

/-- A value is a defined (non-`NaN`) number lying in the closed unit
interval, the output range of the min-max scaler. -/
def inUnit (o : Option ℚ) : Prop :=
  ∃ v, o = some v ∧ 0 ≤ v ∧ v ≤ 1

/-- A fixed interpretation of the trigonometric columns, used to instantiate
the parametric pipeline on concrete inputs. -/
def hz : ℤ → ℚ := fun _ => 0

/-- A concrete valid typed row: strictly increasing timestamp, demand label
and temperature equal to the index, all other measurements zero. -/
def mkRow (k : ℕ) : PRow where
  dateTime := k
  hour := 0
  rented_bike_count := some k
  temperature := some k
  humidity := some 0
  wind_speed := some 0
  visibility := some 0
  dew_point_temperature := some 0
  solar_radiation := some 0
  rainfall := some 0
  snowfall := some 0
  seasons := "Spring"
  holiday := 0
  functioning_day := 1

/-- A 56-row chronological dataset of valid rows. -/
def d56c : List PRow :=
  (List.range 56).map mkRow

/-- One later row whose temperature exceeds every temperature in `d56c`. -/
def rowX : PRow :=
  { mkRow 56 with temperature := some 1000 }

/-- The dataset `d56c` with the extreme row appended after the split point. -/
def d57c : List PRow :=
  d56c ++ [rowX]

/-- A concrete normalized row with demand label equal to the index. -/
def mkNRow (k : ℕ) : NRow where
  dateTime := k
  hour := 0
  rented_bike_count := some k
  temperature := some 0
  humidity := some 0
  wind_speed := some 0
  visibility := some 0
  dew_point_temperature := some 0
  solar_radiation := some 0
  rainfall := some 0
  snowfall := some 0
  seasons := "Spring"
  holiday := 0
  functioning_day := 1
  hour_sin := 0
  hour_cos := 0
  season_spring := 1
  season_summer := 0
  season_autumn := 0
  season_winter := 0

/-- An 80-row normalized dataset (the window-count scenario of the spec). -/
def d80n : List NRow :=
  (List.range 80).map mkNRow

/-- A 56-row normalized dataset, long enough for two test windows. -/
def d56n : List NRow :=
  (List.range 56).map mkNRow

/-- The split produced by the first variant on `d56n`. -/
def d56split : SplitData :=
  splitData (createSequences d56n).sequences (createSequences d56n).labels

/-- A valid typed row with the constant demand label 500. -/
def mkRowC (k : ℕ) : PRow :=
  { mkRow k with rented_bike_count := some 500 }

/-- Full set of 49 valid rows with demand 500: exactly one window is produced. -/
def d49c : List PRow :=
  (List.range 49).map mkRowC

/-- A concrete `part_000` processed row: every column constant (demand 5). -/
def mk0Row (k : ℕ) : P0Row where
  dateTime := k
  rentedBikeCount := 5
  hourSin := 0
  hourCos := 0
  temperature := 3
  humidity := 0
  windSpeed := 0
  visibility := 0
  dewPoint := 0
  solarRadiation := 0
  rainfall := 0
  snowfall := 0
  seasonSpring := 1
  seasonSummer := 0
  seasonAutumn := 0
  seasonWinter := 0
  holiday := 0
  functioningDay := 1

/-- Full set of 49 constant `part_000` rows: exactly one window is produced. -/
def d49z : List P0Row :=
  (List.range 49).map mk0Row

/-- A row whose temperature failed to parse (`NaN`), all else valid. -/
def badRow0 : PRow :=
  { mkRow 99 with temperature := none }

/-- A two-row valid dataset. -/
def d2p : List PRow :=
  [mkRow 0, mkRow 1]

/-- The first normalized row of `d2p` under the `hz` interpretation. -/
def nrw : NRow :=
  normRow (fitNormParams d2p) hz hz (mkRow 0)

lemma foldl_min_le (xs : List ℚ) (x : ℚ) : xs.foldl min x ≤ x := by
  induction xs generalizing x with
  | nil => exact le_refl x
  | cons y ys ih => exact le_trans (ih (min x y)) (min_le_left x y)

lemma foldl_min_le_mem (xs : List ℚ) (x a : ℚ) (h : a ∈ xs) :
    xs.foldl min x ≤ a := by
  induction xs generalizing x with
  | nil => cases h
  | cons y ys ih =>
      rcases List.mem_cons.1 h with rfl | hmem
      · exact le_trans (foldl_min_le ys (min x a)) (min_le_right x a)
      · exact ih (min x y) hmem

lemma le_foldl_max (xs : List ℚ) (x : ℚ) : x ≤ xs.foldl max x := by
  induction xs generalizing x with
  | nil => exact le_refl x
  | cons y ys ih => exact le_trans (le_max_left x y) (ih (max x y))

lemma mem_le_foldl_max (xs : List ℚ) (x a : ℚ) (h : a ∈ xs) :
    a ≤ xs.foldl max x := by
  induction xs generalizing x with
  | nil => cases h
  | cons y ys ih =>
      rcases List.mem_cons.1 h with rfl | hmem
      · exact le_trans (le_max_right x a) (le_foldl_max ys (max x a))
      · exact ih (max x y) hmem

lemma mem_insertRow (x a : PRow) (l : List PRow) :
    a ∈ insertRow x l ↔ a = x ∨ a ∈ l := by
  induction l with
  | nil => simp [insertRow]
  | cons y ys ih =>
      by_cases h : rowLe x y
      · simp [insertRow, h]
      · simp [insertRow, h, ih]
        tauto

lemma mem_sortRows (a : PRow) (l : List PRow) :
    a ∈ sortRows l ↔ a ∈ l := by
  induction l with
  | nil => simp [sortRows]
  | cons y ys ih => simp [sortRows, mem_insertRow, ih]

lemma length_insertRow (x : PRow) (l : List PRow) :
    (insertRow x l).length = l.length + 1 := by
  induction l with
  | nil => rfl
  | cons y ys ih =>
      by_cases h : rowLe x y
      · simp [insertRow, h]
      · simp [insertRow, h, ih]

lemma length_sortRows (l : List PRow) :
    (sortRows l).length = l.length := by
  induction l with
  | nil => rfl
  | cons y ys ih => simp [sortRows, length_insertRow, ih]

lemma colParams_bounds (get : PRow → Option ℚ) (data : List PRow) (r : PRow)
    (v : ℚ) (hr : r ∈ data) (hv : get r = some v) :
    ∃ p : ScaleParams, colParams get data = some p ∧ p.min ≤ v ∧ v ≤ p.max := by
  have hvm : v ∈ featValues get data := by
    unfold featValues
    exact List.mem_filterMap.2 ⟨get r, List.mem_map_of_mem get hr, by rw [hv]; rfl⟩
  cases hc : featValues get data with
  | nil => rw [hc] at hvm; cases hvm
  | cons x xs =>
      rw [hc] at hvm
      refine ⟨⟨xs.foldl min x, xs.foldl max x⟩, ?_, ?_, ?_⟩
      · unfold colParams
        rw [hc]
        rfl
      · rcases List.mem_cons.1 hvm with rfl | hmem
        · exact foldl_min_le xs v
        · exact foldl_min_le_mem xs x v hmem
      · rcases List.mem_cons.1 hvm with rfl | hmem
        · exact le_foldl_max xs v
        · exact mem_le_foldl_max xs x v hmem

lemma normVal_unit (get : PRow → Option ℚ) (data : List PRow) (r : PRow)
    (v : ℚ) (hr : r ∈ data) (hv : get r = some v) :
    inUnit (normVal (colParams get data) (get r)) := by
  obtain ⟨p, hp, h1, h2⟩ := colParams_bounds get data r v hr hv
  rw [hp]
  unfold normVal
  by_cases hd : p.max - p.min = 0
  · exact ⟨0, by simp [hd], le_refl 0, zero_le_one⟩
  · have hpos : 0 < p.max - p.min :=
      lt_of_le_of_ne (by linarith) (Ne.symm hd)
    refine ⟨(v - p.min) / (p.max - p.min), by simp [hd, hv], ?_, ?_⟩
    · exact div_nonneg (by linarith) hpos.le
    · exact (div_le_one hpos).2 (by linarith)

lemma p0NormField_unit (get : P0Row → ℚ) (x : P0Row) (xs : List P0Row)
    (r : P0Row) (hr : r ∈ x :: xs) :
    0 ≤ p0NormField get x xs r ∧ p0NormField get x xs r ≤ 1 := by
  have hmn : p0ColMin get x xs ≤ get r := by
    rcases List.mem_cons.1 hr with rfl | hmem
    · exact foldl_min_le (xs.map get) (get r)
    · exact foldl_min_le_mem (xs.map get) (get x) (get r) (List.mem_map_of_mem get hmem)
  have hmx : get r ≤ p0ColMax get x xs := by
    rcases List.mem_cons.1 hr with rfl | hmem
    · exact le_foldl_max (xs.map get) (get r)
    · exact mem_le_foldl_max (xs.map get) (get x) (get r) (List.mem_map_of_mem get hmem)
  unfold p0NormField p0NormalizeVal p0Range
  by_cases h0 : p0ColMax get x xs - p0ColMin get x xs = 0
  · have : get r - p0ColMin get x xs = 0 := by linarith [sub_eq_zero.1 h0]
    rw [if_pos h0, this]
    norm_num
  · have hpos : 0 < p0ColMax get x xs - p0ColMin get x xs :=
      lt_of_le_of_ne (by linarith) (Ne.symm h0)
    rw [if_neg h0]
    exact ⟨div_nonneg (by linarith) hpos.le, (div_le_one hpos).2 (by linarith)⟩

lemma normalizeFeatures0_count_unit (data : List P0Row) (nr : P0Row)
    (h : nr ∈ normalizeFeatures0 data) :
    0 ≤ nr.rentedBikeCount ∧ nr.rentedBikeCount ≤ 1 := by
  cases data with
  | nil => cases h
  | cons x xs =>
      obtain ⟨r, hr, rfl⟩ := List.mem_map.1 h
      exact p0NormField_unit (fun s => s.rentedBikeCount) x xs r hr

lemma p0_label_from_row (L : ℕ) (data : List P0Row) (lab : List ℚ) (q : ℚ)
    (hlab : lab ∈ (createSequences0 L data).labels) (hq : q ∈ lab) :
    ∃ r ∈ data, q = r.rentedBikeCount := by
  obtain ⟨i, _, rfl⟩ := List.mem_map.1 hlab
  obtain ⟨r, hr, rfl⟩ := List.mem_map.1 hq
  exact ⟨r, List.drop_subset i data (List.take_subset L (data.drop i) hr), rfl⟩

lemma range'_getElem? (s n i : ℕ) :
    (List.range' s n)[i]? = if i < n then some (s + i) else none := by
  by_cases h : i < n
  · have h2 := List.getElem?_range' s 1 h
    rw [if_pos h]
    simpa using h2
  · rw [if_neg h, List.getElem?_eq_none]
    simpa using Nat.le_of_not_lt h

/-- Claim C2 (amended): the window builders produce exactly
`max(0, M - lookback - horizon)` windows, one fewer than the claimed
`floor((M - L - H)/S) + 1`, because the JS loop bound
`i < data.length - predictionLength` excludes the last valid start index.
For the first variant (`L = H = 24`, stride 1) the count is `M - 48`; for
the `part_000` variant with parameter `L` it is `M - (L + L)`. -/
theorem window_count_theorem (data : List NRow) :
    (createSequences data).sequences.length = data.length - 48 ∧
    (createSequences data).labels.length = data.length - 48 ∧
    ∀ (L : ℕ) (d0 : List P0Row),
      (createSequences0 L d0).sequences.length = d0.length - (L + L) ∧
      (createSequences0 L d0).labels.length = d0.length - (L + L) := by
  refine ⟨?_, ?_, fun L d0 => ⟨?_, ?_⟩⟩ <;>
    simp [createSequences, createSequences0] <;> omega

/-- Claim C2 counterexample: an 80-row input yields 32 windows, not the
claimed `floor((80 - 24 - 24)/1) + 1 = 33`. -/
theorem window_count_counterexample :
    (createSequences d80n).sequences.length = 32 ∧
    (80 - 24 - 24) / 1 + 1 = 33 := by
  constructor
  · simp [createSequences, d80n]
  · norm_num

/-- Claim C5 (amended): `denormalize` is the exact inverse of the `part_000`
scaling for EVERY fitted `(min, max)` and every value `v` — including the
degenerate `max = min` case, where the stored range is `1` (from
`max - min || 1`), so `normalize v = v - min` (not the claimed constant `0`)
and the round trip returns `v` (not the claimed `min`). -/
theorem p0_roundtrip_theorem (mn mx v : ℚ) :
    p0DenormalizeVal mn mx (p0NormalizeVal mn mx v) = v := by
  unfold p0DenormalizeVal p0NormalizeVal p0Range
  by_cases h : mx - mn = 0
  · rw [if_pos h]
    ring
  · rw [if_neg h]
    field_simp

/-- Claim C5 counterexample: with fitted `min = max = 5` and `v = 7`, the
`part_000` scaler does not map `v` to `0` (it yields `2`), and the round
trip returns `7`, not the fitted `min`. -/
theorem p0_degenerate_counterexample :
    ¬ (p0NormalizeVal 5 5 7 = 0 ∧
       p0DenormalizeVal 5 5 (p0NormalizeVal 5 5 7) = 5) := by
  intro h
  have h1 : p0NormalizeVal 5 5 7 = 2 := by
    unfold p0NormalizeVal p0Range
    norm_num
  rw [h1] at h
  exact absurd h.1 (by norm_num)

/-- Claim C6 counterexample: the `featureNames` column order of the source
differs from the order asserted by the specification (numerics, cyclical
pair, lexicographically sorted season one-hot block, then holiday, then
functioning day). -/
theorem feature_order_counterexample :
    featureNames ≠ specFeatureNames := by
  decide

/-- Claim C6 (amended): for every normalized record, the emitted
FeatureVector lists, in order, the eight numeric measurement columns,
`hour_sin`, `hour_cos`, then the HOLIDAY and FUNCTIONING-DAY columns, and
only then the season one-hot block in the HARDCODED order Spring, Summer,
Autumn, Winter (not a lexicographically sorted observed vocabulary). -/
theorem feature_order_theorem (hsin hcos : ℤ → ℚ) (data : List PRow)
    (nr : NRow) (hmem : nr ∈ normalizeFeatures hsin hcos data) :
    featuresOf nr =
      [nr.temperature, nr.humidity, nr.wind_speed, nr.visibility,
       nr.dew_point_temperature, nr.solar_radiation, nr.rainfall, nr.snowfall,
       some nr.hour_sin, some nr.hour_cos,
       some nr.holiday, some nr.functioning_day,
       some (if nr.seasons = "Spring" then 1 else 0),
       some (if nr.seasons = "Summer" then 1 else 0),
       some (if nr.seasons = "Autumn" then 1 else 0),
       some (if nr.seasons = "Winter" then 1 else 0)] := by
  obtain ⟨r, _, rfl⟩ := List.mem_map.1 hmem
  simp [featuresOf, featureNames, getFeature, normRow, oneHotEncodeSeason]

/-- Claim C6 witness: the column-order theorem instantiated on the first
normalized row of the concrete dataset `d2p`. -/
theorem feature_order_witness :
    nrw ∈ normalizeFeatures hz hz d2p ∧
    featuresOf nrw =
      [nrw.temperature, nrw.humidity, nrw.wind_speed, nrw.visibility,
       nrw.dew_point_temperature, nrw.solar_radiation, nrw.rainfall, nrw.snowfall,
       some nrw.hour_sin, some nrw.hour_cos,
       some nrw.holiday, some nrw.functioning_day,
       some (if nrw.seasons = "Spring" then 1 else 0),
       some (if nrw.seasons = "Summer" then 1 else 0),
       some (if nrw.seasons = "Autumn" then 1 else 0),
       some (if nrw.seasons = "Winter" then 1 else 0)] :=
  have hm : nrw ∈ normalizeFeatures hz hz d2p :=
    List.mem_map_of_mem (normRow (fitNormParams d2p) hz hz)
      (show mkRow 0 ∈ d2p by simp [d2p])
  ⟨hm, feature_order_theorem hz hz d2p nrw hm⟩

/-- Claim C7 (amended): the FIRST variant's record normalizer fails (with
the empty-dataset error) exactly when zero rows survive the validity
filter, and otherwise returns precisely the sorted surviving records; the
SECOND variant (see the counterexample) returns successfully even then. -/
theorem preprocess_error_iff_theorem (data : List PRow) :
    (preprocessData data).toOption =
      if data.filter rowValid = [] then none
      else some (sortRows (data.filter rowValid)) := by
  unfold preprocessData
  by_cases h : data.filter rowValid = []
  · simp [h, sortRows, Except.toOption]
  · have hlen : ¬ (sortRows (data.filter rowValid)).length = 0 := by
      rw [length_sortRows]
      simpa [List.length_eq_zero] using h
    simp [h, hlen, Except.toOption]

/-- Claim C7 counterexample: the second variant's record normalizer
(`src/data-loader.js` lines 433-505) returns successfully (the empty list)
when zero rows survive the validity filter — it never raises. -/
theorem preprocess2_counterexample :
    rowValid badRow0 = false ∧ preprocessData2 [badRow0] = [] := by
  constructor
  · decide
  · decide

/-- Claim C1 (amended): the pipeline fits the scaler on the ENTIRE sorted
valid dataset before splitting — the fitted temperature `{min, max}` bounds
the temperature of EVERY valid input row, including rows that end up past
the split boundary in the test partition; consequently (see the
counterexample) appending further test rows can change the fitted
statistics. -/
theorem scaler_fit_spans_whole_dataset (hsin hcos : ℤ → ℚ) (data : List PRow)
    (r : PRow) (v : ℚ) (hmem : r ∈ data) (hval : rowValid r = true)
    (htemp : r.temperature = some v)
    (hok : (loadAndPreprocess hsin hcos data).isOk = true) :
    ∃ p : ScaleParams,
      (loadAndPreprocess hsin hcos data).toOption.map
        (fun ds => ds.normalizationParams.temperature) = some (some p) ∧
      p.min ≤ v ∧ v ≤ p.max := by
  unfold loadAndPreprocess at hok ⊢
  cases hpre : preprocessData data with
  | error e => rw [hpre] at hok; simp [Except.map, Except.isOk, Except.toBool] at hok
  | ok processed =>
      have hproc : processed = sortRows (data.filter rowValid) := by
        unfold preprocessData at hpre
        by_cases h : (sortRows (data.filter rowValid)).length = 0
        · simp [h] at hpre
        · simp [h] at hpre
          exact hpre.symm
      have hrp : r ∈ processed := by
        rw [hproc, mem_sortRows]
        exact List.mem_filter.2 ⟨hmem, hval⟩
      obtain ⟨p, hp, h1, h2⟩ :=
        colParams_bounds (fun s => s.temperature) processed r v hrp htemp
      refine ⟨p, ?_, h1, h2⟩
      simp [Except.map, Except.toOption, fitNormParams, hp]

/-- Claim C1 witness: the fitted statistics of the concrete run on `d56c`
bound the temperature of the chronologically last row — a row whose windows
lie entirely in the test partition. -/
theorem scaler_fit_witness :
    mkRow 55 ∈ d56c ∧ rowValid (mkRow 55) = true ∧
    (mkRow 55).temperature = some 55 ∧
    (loadAndPreprocess hz hz d56c).isOk = true ∧
    (∃ p : ScaleParams,
      (loadAndPreprocess hz hz d56c).toOption.map
        (fun ds => ds.normalizationParams.temperature) = some (some p) ∧
      p.min ≤ 55 ∧ 55 ≤ p.max) :=
  ⟨by decide, by decide, by decide, by decide,
   scaler_fit_spans_whole_dataset hz hz d56c (mkRow 55) 55
     (by decide) (by decide) (by decide) (by decide)⟩

/-- Claim C1 counterexample: appending one extra (test-side) row with a new
extreme temperature to `d56c` CHANGES the fitted temperature statistics, so
the two-run leakage invariant asserted by the specification fails on this
code. -/
theorem scaler_leakage_counterexample :
    (loadAndPreprocess hz hz d56c).toOption.map
      (fun ds => ds.normalizationParams.temperature) ≠
    (loadAndPreprocess hz hz d57c).toOption.map
      (fun ds => ds.normalizationParams.temperature) := by
  decide

/-- Claim C8 (amended): for every input with at least one valid row in which
exactly one row fails the numeric validity check, the first variant's
normalizer succeeds, drops exactly that row BEFORE the chronological sort
(the result is the sort of the other rows), and returns `totalRows - 1`
records.  (When the invalid row is the only row, the normalizer raises
instead — see the counterexample.) -/
theorem malformed_row_theorem (l1 l2 : List PRow) (b : PRow)
    (hb : rowValid b = false) (hval : ∀ r ∈ l1 ++ l2, rowValid r = true)
    (hne : l1 ++ l2 ≠ []) :
    (preprocessData (l1 ++ b :: l2)).toOption = some (sortRows (l1 ++ l2)) ∧
    (sortRows (l1 ++ l2)).length = (l1 ++ b :: l2).length - 1 := by
  have hfil : (l1 ++ b :: l2).filter rowValid = l1 ++ l2 := by
    rw [List.filter_append, List.filter_cons_of_neg (by simp [hb]),
        List.filter_eq_self.2 (fun a ha => hval a (List.mem_append_left l2 ha)),
        List.filter_eq_self.2 (fun a ha => hval a (List.mem_append_right l1 ha))]
  constructor
  · have hlen : ¬ (sortRows (l1 ++ l2)).length = 0 := by
      rw [length_sortRows]
      simpa [List.length_eq_zero] using hne
    unfold preprocessData
    rw [hfil]
    simp [hlen, Except.toOption]
  · rw [length_sortRows]
    simp only [List.length_append, List.length_cons]
    omega

/-- Claim C8 witness: a three-row input whose middle row has a non-numeric
temperature yields exactly two sorted records and no error. -/
theorem malformed_row_witness :
    rowValid badRow0 = false ∧
    ([mkRow 0, mkRow 1].all rowValid = true) ∧
    (preprocessData [mkRow 0, badRow0, mkRow 1]).toOption =
      some (sortRows [mkRow 0, mkRow 1]) ∧
    (sortRows [mkRow 0, mkRow 1]).length = 3 - 1 :=
  ⟨by decide, by decide,
   (malformed_row_theorem [mkRow 0] [mkRow 1] badRow0
     (by decide) (by decide) (by decide)).1,
   (malformed_row_theorem [mkRow 0] [mkRow 1] badRow0
     (by decide) (by decide) (by decide)).2⟩

/-- Claim C8 counterexample: when the single row of a one-row input has a
non-numeric required numeric column, the normalizer RAISES (empty-dataset
error) instead of returning `totalRows - 1 = 0` records without raising. -/
theorem malformed_single_row_counterexample :
    rowValid badRow0 = false ∧ (preprocessData [badRow0]).toOption = none := by
  constructor
  · decide
  · decide

/-- Claim C10 (confirmed): for every dataset whose eight numeric measurement
fields are all finite, every normalized numeric-feature value produced by
`normalizeFeatures` is a defined number in the closed interval `[0, 1]`
(degenerate constant columns map to `0`), because the per-column `min`/`max`
are fitted from the very rows being normalized. -/
theorem normalized_unit_range_theorem (hsin hcos : ℤ → ℚ) (data : List PRow)
    (nr : NRow) (hfin : ∀ r ∈ data, numericFinite r = true)
    (hmem : nr ∈ normalizeFeatures hsin hcos data) :
    inUnit nr.temperature ∧ inUnit nr.humidity ∧ inUnit nr.wind_speed ∧
    inUnit nr.visibility ∧ inUnit nr.dew_point_temperature ∧
    inUnit nr.solar_radiation ∧ inUnit nr.rainfall ∧ inUnit nr.snowfall := by
  obtain ⟨r, hr, rfl⟩ := List.mem_map.1 hmem
  have hf := hfin r hr
  unfold numericFinite at hf
  simp only [Bool.and_eq_true, Option.isSome_iff_exists] at hf
  obtain ⟨⟨⟨⟨⟨⟨⟨⟨v1, h1⟩, v2, h2⟩, v3, h3⟩, v4, h4⟩, v5, h5⟩, v6, h6⟩, v7, h7⟩, v8, h8⟩ := hf
  exact ⟨normVal_unit (fun s => s.temperature) data r v1 hr h1,
         normVal_unit (fun s => s.humidity) data r v2 hr h2,
         normVal_unit (fun s => s.wind_speed) data r v3 hr h3,
         normVal_unit (fun s => s.visibility) data r v4 hr h4,
         normVal_unit (fun s => s.dew_point_temperature) data r v5 hr h5,
         normVal_unit (fun s => s.solar_radiation) data r v6 hr h6,
         normVal_unit (fun s => s.rainfall) data r v7 hr h7,
         normVal_unit (fun s => s.snowfall) data r v8 hr h8⟩

/-- Claim C10 witness: the unit-range theorem instantiated on the first
normalized row of the concrete dataset `d2p`. -/
theorem normalized_unit_range_witness :
    (d2p.all numericFinite = true) ∧
    (inUnit nrw.temperature ∧ inUnit nrw.humidity ∧ inUnit nrw.wind_speed ∧
     inUnit nrw.visibility ∧ inUnit nrw.dew_point_temperature ∧
     inUnit nrw.solar_radiation ∧ inUnit nrw.rainfall ∧ inUnit nrw.snowfall) :=
  have hm : nrw ∈ normalizeFeatures hz hz d2p :=
    List.mem_map_of_mem (normRow (fitNormParams d2p) hz hz)
      (show mkRow 0 ∈ d2p by simp [d2p])
  ⟨by decide, normalized_unit_range_theorem hz hz d2p nrw (by decide) hm⟩

/-- Claim C3 (amended): BOTH partitions consist of stride-1 windows.  The
split merely slices the single stride-1 window list: the `i`-th training
label window is the label block starting at row `24 + i`, and the `i`-th
test label window is the label block starting at row
`24 + splitIndex + i` — consecutive test windows start one row apart, so
their 24-row label ranges overlap (they are not non-overlapping day blocks,
see the counterexample). -/
theorem window_stride_theorem (data : List NRow) (i : ℕ) :
    ((splitData (createSequences data).sequences
        (createSequences data).labels).trainLabels[i]? =
      if i < 4 * (data.length - 24 - 24) / 5 then
        some (((data.drop (24 + i)).take 24).map (fun r => r.rented_bike_count))
      else none) ∧
    ((splitData (createSequences data).sequences
        (createSequences data).labels).testLabels[i]? =
      if 4 * (data.length - 24 - 24) / 5 + i < data.length - 24 - 24 then
        some (((data.drop (24 + (4 * (data.length - 24 - 24) / 5 + i))).take 24).map
          (fun r => r.rented_bike_count))
      else none) := by
  have hS : 4 * (data.length - 24 - 24) / 5 ≤ data.length - 24 - 24 := by
    calc 4 * (data.length - 24 - 24) / 5
        ≤ 5 * (data.length - 24 - 24) / 5 := Nat.div_le_div_right (by omega)
      _ = data.length - 24 - 24 := Nat.mul_div_cancel_left _ (by norm_num)
  have hseq : (createSequences data).sequences.length = data.length - 24 - 24 := by
    simp [createSequences]
  constructor
  · show ((createSequences data).labels.take _)[i]? = _
    rw [hseq, List.getElem?_take]
    by_cases hi : i < 4 * (data.length - 24 - 24) / 5
    · rw [if_pos hi, if_pos hi]
      show ((List.range' 24 (data.length - 24 - 24)).map _)[i]? = _
      rw [List.getElem?_map, range'_getElem?, if_pos (lt_of_lt_of_le hi hS)]
      rfl
    · rw [if_neg hi, if_neg hi]
  · show ((createSequences data).labels.drop _)[i]? = _
    rw [hseq, List.getElem?_drop]
    show ((List.range' 24 (data.length - 24 - 24)).map _)[_]? = _
    rw [List.getElem?_map, range'_getElem?]
    by_cases hi : 4 * (data.length - 24 - 24) / 5 + i < data.length - 24 - 24
    · rw [if_pos hi, if_pos hi]
      rfl
    · rw [if_neg hi, if_neg hi]
      rfl

/-- Claim C3 counterexample: on the concrete 56-row dataset (demand label
equal to the row index) there are two test windows and the label value of
row 31 appears in BOTH — their output label index ranges overlap, so test
windows are not stride-24 disjoint day blocks. -/
theorem window_stride_counterexample :
    d56split.testLabels.length = 2 ∧
    some (31 : ℚ) ∈ d56split.testLabels.getD 0 [] ∧
    some (31 : ℚ) ∈ d56split.testLabels.getD 1 [] := by
  refine ⟨?_, ?_, ?_⟩ <;> decide

/-- Claim C4 (amended, `part_000` variant): every value of every label
window handed to the training engine by the `part_000` pipeline is min-max
normalized into `[0, 1]` with the statistics fitted on the demand column.
(The `data-loader.js` variants instead hand off RAW demand counts — see the
counterexample.) -/
theorem p0_labels_in_unit_theorem (data : List P0Row) (lab : List ℚ) (q : ℚ)
    (hlab : lab ∈ (p0Pipeline data).trainLabels ∨
            lab ∈ (p0Pipeline data).testLabels)
    (hq : q ∈ lab) : 0 ≤ q ∧ q ≤ 1 := by
  have hlab2 : lab ∈ (createSequences0 24 (normalizeFeatures0 data)).labels := by
    rcases hlab with h | h
    · exact List.take_subset _ _ h
    · exact List.drop_subset _ _ h
  obtain ⟨r, hr, rfl⟩ :=
    p0_label_from_row 24 (normalizeFeatures0 data) lab q hlab2 hq
  exact normalizeFeatures0_count_unit data r hr

/-- The head of a nonempty list is a member (used to pick concrete window
values without evaluating the scaler arithmetic). -/
theorem getD_zero_mem {a : Type} [Inhabited a] (l : List a) (d : a)
    (h : l ≠ []) : l.getD 0 d ∈ l := by
  cases l with
  | nil => exact absurd rfl h
  | cons x xs => exact List.mem_cons_self x xs

/-- Claim C4 witness: on the concrete 49-row constant dataset `d49z`, the
first value of the single handed-off test label window lies in `[0, 1]`. -/
theorem p0_labels_in_unit_witness :
    ((p0Pipeline d49z).testLabels.getD 0 [] ∈ (p0Pipeline d49z).testLabels) ∧
    (((p0Pipeline d49z).testLabels.getD 0 []).getD 0 0 ∈
      (p0Pipeline d49z).testLabels.getD 0 []) ∧
    (0 ≤ ((p0Pipeline d49z).testLabels.getD 0 []).getD 0 0 ∧
      ((p0Pipeline d49z).testLabels.getD 0 []).getD 0 0 ≤ 1) :=
  have hm1 : (p0Pipeline d49z).testLabels.getD 0 [] ∈ (p0Pipeline d49z).testLabels :=
    getD_zero_mem _ _ (by decide)
  have hm2 : ((p0Pipeline d49z).testLabels.getD 0 []).getD 0 0 ∈
      (p0Pipeline d49z).testLabels.getD 0 [] :=
    getD_zero_mem _ _ (by decide)
  ⟨hm1, hm2,
   p0_labels_in_unit_theorem d49z ((p0Pipeline d49z).testLabels.getD 0 [])
     (((p0Pipeline d49z).testLabels.getD 0 []).getD 0 0) (Or.inr hm1) hm2⟩

/-- Claim C4 counterexample: the `data-loader.js` pipeline (which the claim
also covers) hands the training engine RAW demand counts: on the concrete
49-row dataset with constant demand 500, the handed-off label window
contains the value 500, which is outside the scaler's output range. -/
theorem raw_labels_counterexample :
    (loadAndPreprocess hz hz d49c).toOption.map
      (fun ds => ds.split.testLabels) =
      some [List.replicate 24 (some (500 : ℚ))] ∧
    ¬ (0 ≤ (500 : ℚ) ∧ (500 : ℚ) ≤ 1) := by
  constructor
  · decide
  · norm_num

/-- Two consecutive encodings are always `sqrt(2 - 2 cos(pi/12))` apart:
claim C9 (confirmed): the Euclidean distance between the cyclical encodings
of hour `h` and hour `(h+1) mod 24` is the same constant for every
`h < 24`, including the wrap from hour 23 to hour 0. -/
theorem cyclical_continuity_theorem (h : ℕ) (hh : h < 24) :
    consecHourDist h = Real.sqrt (2 - 2 * Real.cos (Real.pi / 12)) := by
  have key : (hourSinR (nextHour h) - hourSinR h) ^ 2 +
      (hourCosR (nextHour h) - hourCosR h) ^ 2 =
      2 - 2 * Real.cos (Real.pi / 12) := by
    unfold hourSinR hourCosR
    have expand : ∀ a b : ℝ,
        (Real.sin a - Real.sin b) ^ 2 + (Real.cos a - Real.cos b) ^ 2 =
        2 - 2 * Real.cos (a - b) := by
      intro a b
      rw [Real.cos_sub]
      linear_combination Real.sin_sq_add_cos_sq a + Real.sin_sq_add_cos_sq b
    rw [expand]
    rcases Nat.lt_or_ge h 23 with h23 | h23
    · have hn : nextHour h = h + 1 := Nat.mod_eq_of_lt (by omega)
      have hang : hourRad (h + 1) - hourRad h = Real.pi / 12 := by
        unfold hourRad
        push_cast
        ring
      rw [hn, hang]
    · have h23e : h = 23 := by omega
      subst h23e
      have hn : nextHour 23 = 0 := by rfl
      rw [hn]
      have hang : hourRad 0 - hourRad 23 = -(2 * Real.pi - Real.pi / 12) := by
        unfold hourRad
        push_cast
        ring
      rw [hang, Real.cos_neg, Real.cos_sub, Real.cos_two_pi, Real.sin_two_pi]
      ring
  unfold consecHourDist
  rw [key]

/-- Claim C9 witness: the constant-step property instantiated at the
day-boundary wrap, hour 23 to hour 0. -/
theorem cyclical_continuity_witness :
    23 < 24 ∧
    consecHourDist 23 = Real.sqrt (2 - 2 * Real.cos (Real.pi / 12)) :=
  ⟨by norm_num, cyclical_continuity_theorem 23 (by norm_num)⟩
